import Mathlib

/-!
Shallow embedding of the AiGuru chat assistant's quota controller, language
heuristics, translation stub, generation client and conversation orchestrator
(`src/services/aiService.ts` and `src/components/ChatInterface.tsx`), with
theorems settling the specification claims about them.
-/

namespace AiGuru

/-- The three browser `localStorage` slots used by the service
(`gemini_api_key`, `ai_usage_count`, `ai_usage_date`).  `localStorage` holds
strings; the usage count is only ever written as `toString(n)` of a number and
read back with `parseInt`, so the embedding stores the parsed numeric value
directly (`none` models a missing key, read as 0 via the `|| '0'` fallback). -/
structure Store where
  geminiApiKey : Option String
  aiUsageCount : Option Nat
  aiUsageDate : Option String
deriving DecidableEq

/-- `const MAX_DAILY_USAGE = 4`. -/
def MAX_DAILY_USAGE : Nat := 4

/-- Result record of `checkUsageLimit`: `{ canUse, remaining }` where the
returned `remaining` is clamped at 0 (`Math.max(0, remaining)`). -/
structure CheckResult where
  canUse : Bool
  remaining : Nat
deriving DecidableEq

/-- `checkUsageLimit()`, with the current day (`new Date().toDateString()`)
passed explicitly.  Reads the stored date and count, lazily resets both when
the stored date differs from today (also when no date is stored), and returns
`canUse = (4 - count) > 0` and `remaining = max(0, 4 - count)` computed over
the integers. -/
def checkUsageLimit (today : String) (st : Store) : Store × CheckResult :=
  if st.aiUsageDate ≠ some today then
    let st1 : Store := { st with aiUsageDate := some today, aiUsageCount := some 0 }
    let remaining : Int := (MAX_DAILY_USAGE : Int) - 0
    (st1, { canUse := decide (0 < remaining), remaining := remaining.toNat })
  else
    let usageCount : Nat := st.aiUsageCount.getD 0
    let remaining : Int := (MAX_DAILY_USAGE : Int) - usageCount
    (st, { canUse := decide (0 < remaining), remaining := remaining.toNat })

/-- `incrementUsage()`: stores `count + 1` and stamps today's date. -/
def incrementUsage (today : String) (st : Store) : Store :=
  let usageCount : Nat := st.aiUsageCount.getD 0 + 1
  { st with aiUsageCount := some usageCount, aiUsageDate := some today }

/-- `setApiKey(apiKey)`: stores the key and unconditionally resets the usage
count to 0 and the reset date to today. -/
def setApiKey (today apiKey : String) (st : Store) : Store :=
  { st with geminiApiKey := some apiKey, aiUsageCount := some 0, aiUsageDate := some today }

/-- Character class of the `'es'` pattern `/[ñáéíóúü]/i`; the `i` flag is
modelled by listing each letter in both cases. -/
def esChars : List Char := "ñáéíóúüÑÁÉÍÓÚÜ".data

/-- Character class of the `'fr'` pattern `/[àáâäçéèêëíîïôöùúûü]/i`. -/
def frChars : List Char := "àáâäçéèêëíîïôöùúûüÀÁÂÄÇÉÈÊËÍÎÏÔÖÙÚÛÜ".data

/-- Character class of the `'de'` pattern `/[äöüß]/i` (ß has no single-char
upper case under the regex's simple canonicalisation). -/
def deChars : List Char := "äöüßÄÖÜ".data

/-- Character class of the `'it'` pattern `/[àáèéìíîòóùú]/i`. -/
def itChars : List Char := "àáèéìíîòóùúÀÁÈÉÌÍÎÒÓÙÚ".data

/-- Character class of the `'pt'` pattern `/[ãçáàéêíôõú]/i`. -/
def ptChars : List Char := "ãçáàéêíôõúÃÇÁÀÉÊÍÔÕÚ".data

/-- Character class of the `'ru'` pattern `/[абвгдеёжзийклмнопрстуфхцчшщъыьэюя]/i`. -/
def ruChars : List Char := "абвгдеёжзийклмнопрстуфхцчшщъыьэюяАБВГДЕЁЖЗИЙКЛМНОПРСТУФХЦЧШЩЪЫЬЭЮЯ".data

def matchEs (c : Char) : Bool := decide (c ∈ esChars)

def matchFr (c : Char) : Bool := decide (c ∈ frChars)

def matchDe (c : Char) : Bool := decide (c ∈ deChars)

def matchIt (c : Char) : Bool := decide (c ∈ itChars)

def matchPt (c : Char) : Bool := decide (c ∈ ptChars)

def matchRu (c : Char) : Bool := decide (c ∈ ruChars)

/-- The `'zh'` pattern `/[一-鿿]/`. -/
def matchZh (c : Char) : Bool := decide (0x4e00 ≤ c.toNat ∧ c.toNat ≤ 0x9fff)

/-- The `'ja'` pattern `/[぀-ゟ゠-ヿ]/`. -/
def matchJa (c : Char) : Bool :=
  decide ((0x3040 ≤ c.toNat ∧ c.toNat ≤ 0x309f) ∨ (0x30a0 ≤ c.toNat ∧ c.toNat ≤ 0x30ff))

/-- The `'ko'` pattern `/[가-힯]/`. -/
def matchKo (c : Char) : Bool := decide (0xac00 ≤ c.toNat ∧ c.toNat ≤ 0xd7af)

/-- The `'ar'` pattern `/[؀-ۿ]/`. -/
def matchAr (c : Char) : Bool := decide (0x600 ≤ c.toNat ∧ c.toNat ≤ 0x6ff)

/-- The `'hi'` pattern `/[ऀ-ॿ]/`. -/
def matchHi (c : Char) : Bool := decide (0x900 ≤ c.toNat ∧ c.toNat ≤ 0x97f)

/-- The ordered `patterns` table of `detectLanguage`, in source order. -/
def languagePatterns : List (String × (Char → Bool)) :=
  [("es", matchEs), ("fr", matchFr), ("de", matchDe), ("it", matchIt), ("pt", matchPt),
   ("ru", matchRu), ("zh", matchZh), ("ja", matchJa), ("ko", matchKo), ("ar", matchAr),
   ("hi", matchHi)]

/-- `detectLanguage(text)`: return the tag of the first pattern that matches
some character of the text (`pattern.test(text)`), defaulting to `'en'`. -/
def detectLanguage (text : String) : String :=
  match languagePatterns.find? (fun p => text.data.any p.2) with
  | some p => p.1
  | none => "en"

/-- `translateText(text, fromLang, toLang)`: the `from == to` fast path and the
stub body both return the input unchanged; nothing in the body can throw. -/
def translateText (text fromLang toLang : String) : String :=
  if fromLang = toLang then text
  else if fromLang ≠ "en" ∧ toLang = "en" then text
  else text

/-- `pat.isPrefixOf` scanned at every position: JavaScript
`s.includes(pat)` over the character lists. -/
def includesAux (pat : List Char) : List Char → Bool
  | [] => pat.isEmpty
  | c :: rest => pat.isPrefixOf (c :: rest) || includesAux pat rest

/-- JavaScript `String.prototype.includes` (case-sensitive substring test). -/
def strIncludes (s pat : String) : Bool := includesAux pat.data s.data

/-- The `catch` block of `generateResponse`: classify the provider error
message by ordered substring matching into the four thrown error messages. -/
def classifyGeminiError (m : String) : String :=
  if strIncludes m "quota" || strIncludes m "RESOURCE_EXHAUSTED" then
    "API_QUOTA_EXCEEDED"
  else if strIncludes m "API key" || strIncludes m "INVALID_ARGUMENT" then
    "INVALID_API_KEY"
  else if strIncludes m "forbidden" then
    "API access forbidden. Please check your Gemini account permissions."
  else
    "Failed to generate response. Please try again."

/-- Outcome of one `model.generateContent(...)` call: the response text
(`result.response.text()`, empty modelling a falsy text) or a thrown error
carrying a message. -/
inductive ProviderOutcome where
  | ok (text : String)
  | err (msg : String)
deriving DecidableEq

/-- A request dispatched to the Gemini provider: either a plain text prompt or
the multimodal image request built in the `isImage` branch. -/
inductive GenRequest where
  | text (prompt : String)
  | image (instruction : String) (mimeType : String) (dataBase64 : String)
deriving DecidableEq

/-- JavaScript truthiness of an optional string argument (`undefined` and the
empty string are falsy). -/
def truthy (o : Option String) : Bool := !(o.getD "").isEmpty

deriving instance DecidableEq for Except

/-- Result of `generateResponse`: the store after the call, the returned text
or thrown error message, and the list of provider calls dispatched. -/
structure GenOutcome where
  store : Store
  result : Except String String
  calls : List GenRequest
deriving DecidableEq

/-- The request `generateResponse` dispatches to the provider: the `fullPrompt`
assembly (`Context:` template), the document template, or the multimodal image
request whose MIME type and base64 payload are split out of the data URL. -/
def builtRequest (prompt : String) (context fileContent : Option String)
    (isImage : Bool) : GenRequest :=
  let fullPrompt :=
    if truthy context then
      "Context: " ++ context.getD "" ++ "\n\nUser: " ++ prompt
    else prompt
  if truthy fileContent && isImage then
    let fc := fileContent.getD ""
    let dataB64 := (fc.splitOn ",").getD 1 ""
    let mime := (((fc.splitOn ";").headD "").splitOn ":").getD 1 ""
    GenRequest.image ("Analyze this image and answer: " ++ prompt) mime dataB64
  else if truthy fileContent then
    GenRequest.text ("Based on this document content:\n\n" ++ fileContent.getD ""
      ++ "\n\nUser question: " ++ prompt)
  else
    GenRequest.text fullPrompt

/-- The fixed fallback text returned when the provider's response text is
empty, per branch of the source. -/
def emptyResponseFallback (fileContent : Option String) (isImage : Bool) : String :=
  if truthy fileContent && isImage then "Unable to analyze image."
  else "Unable to generate response."

/-- `generateResponse(prompt, context?, fileContent?, isImage?)`, with the
current day and the provider's behaviour passed explicitly.  Checks the usage
limit first (throwing `LIMIT_EXCEEDED`), dispatches the built request,
increments usage only after a successful provider call, falls back to a fixed
string on an empty response text, and classifies provider errors via
`classifyGeminiError`. -/
def generateResponse (today : String) (provider : GenRequest → ProviderOutcome)
    (prompt : String) (context fileContent : Option String) (isImage : Bool)
    (st : Store) : GenOutcome :=
  let checked := checkUsageLimit today st
  if !checked.2.canUse then
    { store := checked.1, result := Except.error "LIMIT_EXCEEDED", calls := [] }
  else
    let req := builtRequest prompt context fileContent isImage
    match provider req with
    | ProviderOutcome.ok t =>
      { store := incrementUsage today checked.1,
        result := Except.ok (if t.isEmpty then emptyResponseFallback fileContent isImage else t),
        calls := [req] }
    | ProviderOutcome.err m =>
      { store := checked.1, result := Except.error (classifyGeminiError m), calls := [req] }

/-- A `Message` of `ChatInterface` (the display-only `id` and `timestamp`
fields are omitted from the embedding). -/
structure Message where
  text : String
  isUser : Bool
  language : String
deriving DecidableEq

/-- An `UploadedFile` of `ChatInterface`. -/
structure UploadedFile where
  name : String
  content : String
  isImage : Bool
deriving DecidableEq

/-- The React state of `ChatInterface` together with the backing
`localStorage` store. -/
structure ChatState where
  messages : List Message
  inputValue : String
  isLoading : Bool
  uploadedFiles : List UploadedFile
  showWelcome : Bool
  usageInfo : CheckResult
  showApiKeyModal : Bool
  isLimitExceeded : Bool
  store : Store
deriving DecidableEq

/-- JavaScript `String.prototype.trim`: drop leading and trailing
whitespace. -/
def jsTrim (s : String) : String :=
  ⟨((s.data.dropWhile Char.isWhitespace).reverse.dropWhile Char.isWhitespace).reverse⟩

/-- `addMessage(text, isUser, language)`: append the turn and leave the
welcome screen. -/
def addMessage (text : String) (isUser : Bool) (language : String)
    (st : ChatState) : ChatState :=
  { st with messages := st.messages ++ [⟨text, isUser, language⟩], showWelcome := false }

/-- `handleSendMessage(text, detectedLang)` with today's date and the provider
behaviour passed explicitly; returns the new state and the provider calls
made.  Mirrors the source: bail out on blank text; pre-check the quota and
append a system turn when exhausted; otherwise append the user turn, resolve
the language (detection only when `detectedLang === 'en'`), translate to
English when needed, call `generateResponse` with the latest uploaded file,
translate the reply back, append the assistant turn and refresh the usage
display; on error append the matching system turn and toggle the modal
state. -/
def handleSendMessage (today : String) (provider : GenRequest → ProviderOutcome)
    (text detectedLang : String) (st : ChatState) : ChatState × List GenRequest :=
  if (jsTrim text).isEmpty then (st, [])
  else
    let checked := checkUsageLimit today st.store
    let st0 := { st with store := checked.1 }
    if !checked.2.canUse then
      let rem := checked.2.remaining
      (addMessage ("Daily usage limit reached (4 times). Try again tomorrow! You have "
          ++ toString rem ++ " uses remaining.") false detectedLang st0, [])
    else
      let st1 := { addMessage text true detectedLang st0 with
                     inputValue := "", isLoading := true }
      let userLanguage := if detectedLang = "en" then detectLanguage text else detectedLang
      let latestFile := st1.uploadedFiles.getLast?
      let fileContext := match latestFile with
        | some f => f.content
        | none => ""
      let isImageQuery := match latestFile with
        | some f => f.isImage
        | none => false
      let englishText :=
        if userLanguage ≠ "en" then translateText text userLanguage "en" else text
      let g := generateResponse today provider englishText none (some fileContext)
        isImageQuery st1.store
      match g.result with
      | Except.ok aiResponse =>
        let translatedResponse :=
          if userLanguage ≠ "en" then translateText aiResponse "en" userLanguage
          else aiResponse
        let st2 := addMessage translatedResponse false userLanguage
          { st1 with store := g.store }
        let refreshed := checkUsageLimit today st2.store
        ({ st2 with store := refreshed.1, usageInfo := refreshed.2, isLoading := false },
         g.calls)
      | Except.error msg =>
        if msg = "LIMIT_EXCEEDED" || msg = "API_QUOTA_EXCEEDED" then
          let st2 := addMessage
            "Daily usage limit reached. Please enter a new API key to continue chatting."
            false detectedLang
            { st1 with store := g.store, isLimitExceeded := true, showApiKeyModal := true }
          ({ st2 with isLoading := false }, g.calls)
        else if msg = "INVALID_API_KEY" then
          let st2 := addMessage "Invalid API key. Please enter a valid Gemini API key."
            false detectedLang
            { st1 with store := g.store, isLimitExceeded := false, showApiKeyModal := true }
          ({ st2 with isLoading := false }, g.calls)
        else
          let st2 := addMessage
            "Sorry, I encountered an error processing your request. Please try again."
            false detectedLang { st1 with store := g.store }
          ({ st2 with isLoading := false }, g.calls)

/-- The line resolving the effective source language in `handleSendMessage`:
`detectedLang === 'en' ? await detectLanguage(text) : detectedLang`. -/
def effectiveUserLanguage (text detectedLang : String) : String :=
  if detectedLang = "en" then detectLanguage text else detectedLang

/-- A fresh `ChatInterface` session over an empty browser profile. -/
def freshChatState : ChatState :=
  { messages := [], inputValue := "", isLoading := false, uploadedFiles := [],
    showWelcome := true, usageInfo := { canUse := true, remaining := 4 },
    showApiKeyModal := false, isLimitExceeded := false,
    store := ⟨none, none, none⟩ }

end AiGuru

namespace AiGuru

lemma checkUsageLimit_same_day (today : String) (st : Store)
    (h : st.aiUsageDate = some today) :
    checkUsageLimit today st =
      (st, { canUse := decide (0 < (MAX_DAILY_USAGE : Int) - st.aiUsageCount.getD 0),
             remaining := ((MAX_DAILY_USAGE : Int) - st.aiUsageCount.getD 0).toNat }) := by
  simp [checkUsageLimit, h]

lemma checkUsageLimit_new_day (today : String) (st : Store)
    (h : st.aiUsageDate ≠ some today) :
    checkUsageLimit today st =
      ({ st with aiUsageDate := some today, aiUsageCount := some 0 },
       { canUse := true, remaining := MAX_DAILY_USAGE }) := by
  unfold checkUsageLimit
  rw [if_pos h]
  rfl

/-- C1: a usage state stamped with day `d1`, first checked on a different day
`d2`, is lazily reset: the check reports `canUse = true` and `remaining = 4`
regardless of the stored count, and the store afterwards holds count 0 and
reset date `d2` (the credential slot untouched). -/
theorem checkUsageLimit_lazy_reset (d1 d2 : String) (st : Store)
    (h1 : st.aiUsageDate = some d1) (h2 : d2 ≠ d1) :
    (checkUsageLimit d2 st).2 = { canUse := true, remaining := MAX_DAILY_USAGE } ∧
    (checkUsageLimit d2 st).1.aiUsageCount = some 0 ∧
    (checkUsageLimit d2 st).1.aiUsageDate = some d2 ∧
    (checkUsageLimit d2 st).1.geminiApiKey = st.geminiApiKey := by
  have hd : st.aiUsageDate ≠ some d2 := by
    rw [h1]
    intro hc
    exact h2 (Option.some.inj hc).symm
  rw [checkUsageLimit_new_day d2 st hd]
  exact ⟨rfl, rfl, rfl, rfl⟩

/-- Witness for `checkUsageLimit_lazy_reset` at a concrete stale state. -/
theorem checkUsageLimit_lazy_reset_witness :
    (checkUsageLimit "Tue Oct 07 2025"
        ⟨none, some 3, some "Mon Oct 06 2025"⟩).2 =
      { canUse := true, remaining := MAX_DAILY_USAGE } ∧
    (checkUsageLimit "Tue Oct 07 2025"
        ⟨none, some 3, some "Mon Oct 06 2025"⟩).1.aiUsageCount = some 0 ∧
    (checkUsageLimit "Tue Oct 07 2025"
        ⟨none, some 3, some "Mon Oct 06 2025"⟩).1.aiUsageDate = some "Tue Oct 07 2025" ∧
    (checkUsageLimit "Tue Oct 07 2025"
        ⟨none, some 3, some "Mon Oct 06 2025"⟩).1.geminiApiKey =
      (⟨none, some 3, some "Mon Oct 06 2025"⟩ : Store).geminiApiKey :=
  checkUsageLimit_lazy_reset "Mon Oct 06 2025" "Tue Oct 07 2025"
    ⟨none, some 3, some "Mon Oct 06 2025"⟩ rfl (by decide)

/-- C3: starting from count 0 on `today`, four `incrementUsage` calls make the
next check report `canUse = false`; a fifth call is tolerated (count becomes
5) yet the check still reports `canUse = false` with `remaining = 0`; within
one day `incrementUsage` always increases the count by exactly one and
`checkUsageLimit` leaves the store untouched, so neither ever decrements. -/
theorem incrementUsage_limit_behavior (today : String) (st : Store)
    (h0 : st.aiUsageCount.getD 0 = 0) (_hd : st.aiUsageDate = some today) :
    (checkUsageLimit today (incrementUsage today (incrementUsage today
        (incrementUsage today (incrementUsage today st))))).2.canUse = false ∧
    (incrementUsage today (incrementUsage today (incrementUsage today
        (incrementUsage today (incrementUsage today st))))).aiUsageCount = some 5 ∧
    (checkUsageLimit today (incrementUsage today (incrementUsage today (incrementUsage today
        (incrementUsage today (incrementUsage today st)))))).2.canUse = false ∧
    (checkUsageLimit today (incrementUsage today (incrementUsage today (incrementUsage today
        (incrementUsage today (incrementUsage today st)))))).2.remaining = 0 ∧
    (∀ s : Store, (incrementUsage today s).aiUsageCount.getD 0 = s.aiUsageCount.getD 0 + 1) ∧
    (∀ s : Store, s.aiUsageDate = some today → (checkUsageLimit today s).1 = s) := by
  have h4 : incrementUsage today (incrementUsage today
      (incrementUsage today (incrementUsage today st)))
      = { st with aiUsageCount := some 4, aiUsageDate := some today } := by
    simp [incrementUsage, h0]
  have h5 : incrementUsage today (incrementUsage today (incrementUsage today
      (incrementUsage today (incrementUsage today st))))
      = { st with aiUsageCount := some 5, aiUsageDate := some today } := by
    rw [h4]
    simp [incrementUsage]
  refine ⟨?_, ?_, ?_, ?_, ?_, ?_⟩
  · rw [h4, checkUsageLimit_same_day _ _ rfl]
    rfl
  · rw [h5]
  · rw [h5, checkUsageLimit_same_day _ _ rfl]
    rfl
  · rw [h5, checkUsageLimit_same_day _ _ rfl]
    rfl
  · intro s
    simp [incrementUsage]
  · intro s hs
    rw [checkUsageLimit_same_day _ _ hs]

/-- Witness for `incrementUsage_limit_behavior` at a concrete zero-count
same-day store. -/
theorem incrementUsage_limit_behavior_witness :
    (checkUsageLimit "Mon Oct 06 2025" (incrementUsage "Mon Oct 06 2025"
        (incrementUsage "Mon Oct 06 2025" (incrementUsage "Mon Oct 06 2025"
        (incrementUsage "Mon Oct 06 2025"
          (⟨none, some 0, some "Mon Oct 06 2025"⟩ : Store)))))).2.canUse = false ∧
    (incrementUsage "Mon Oct 06 2025" (incrementUsage "Mon Oct 06 2025"
        (incrementUsage "Mon Oct 06 2025" (incrementUsage "Mon Oct 06 2025"
        (incrementUsage "Mon Oct 06 2025"
          (⟨none, some 0, some "Mon Oct 06 2025"⟩ : Store)))))).aiUsageCount = some 5 ∧
    (checkUsageLimit "Mon Oct 06 2025" (incrementUsage "Mon Oct 06 2025"
        (incrementUsage "Mon Oct 06 2025" (incrementUsage "Mon Oct 06 2025"
        (incrementUsage "Mon Oct 06 2025" (incrementUsage "Mon Oct 06 2025"
          (⟨none, some 0, some "Mon Oct 06 2025"⟩ : Store))))))).2.canUse = false ∧
    (checkUsageLimit "Mon Oct 06 2025" (incrementUsage "Mon Oct 06 2025"
        (incrementUsage "Mon Oct 06 2025" (incrementUsage "Mon Oct 06 2025"
        (incrementUsage "Mon Oct 06 2025" (incrementUsage "Mon Oct 06 2025"
          (⟨none, some 0, some "Mon Oct 06 2025"⟩ : Store))))))).2.remaining = 0 ∧
    (∀ s : Store, (incrementUsage "Mon Oct 06 2025" s).aiUsageCount.getD 0
      = s.aiUsageCount.getD 0 + 1) ∧
    (∀ s : Store, s.aiUsageDate = some "Mon Oct 06 2025" →
      (checkUsageLimit "Mon Oct 06 2025" s).1 = s) :=
  incrementUsage_limit_behavior "Mon Oct 06 2025"
    ⟨none, some 0, some "Mon Oct 06 2025"⟩ rfl rfl

/-- C7: `setApiKey` stores the given credential and unconditionally resets the
count to 0 and the reset date to today, so the next `checkUsageLimit` reports
`canUse = true` with the full limit (4) remaining, whatever the prior state. -/
theorem setApiKey_resets_usage (today apiKey : String) (st : Store) :
    (setApiKey today apiKey st).geminiApiKey = some apiKey ∧
    (setApiKey today apiKey st).aiUsageCount = some 0 ∧
    (setApiKey today apiKey st).aiUsageDate = some today ∧
    (checkUsageLimit today (setApiKey today apiKey st)).2 =
      { canUse := true, remaining := MAX_DAILY_USAGE } ∧
    (checkUsageLimit today (setApiKey today apiKey st)).1 = setApiKey today apiKey st := by
  refine ⟨rfl, rfl, rfl, ?_, ?_⟩
  · rw [checkUsageLimit_same_day _ _ rfl]
    rfl
  · rw [checkUsageLimit_same_day _ _ rfl]

/-- C6: `translateText` returns its input unchanged for every pair of language
tags, in particular when source and target coincide; being a total function of
its arguments it never throws. -/
theorem translateText_is_identity (text fromLang toLang : String) :
    translateText text fromLang toLang = text ∧
    translateText text fromLang fromLang = text := by
  constructor <;> simp [translateText]

lemma esChars_bounds : ∀ c ∈ esChars, 128 ≤ c.toNat ∧ c.toNat < 0x4e00 := by decide

lemma frChars_bounds : ∀ c ∈ frChars, 128 ≤ c.toNat ∧ c.toNat < 0x4e00 := by decide

lemma deChars_bounds : ∀ c ∈ deChars, 128 ≤ c.toNat ∧ c.toNat < 0x4e00 := by decide

lemma itChars_bounds : ∀ c ∈ itChars, 128 ≤ c.toNat ∧ c.toNat < 0x4e00 := by decide

lemma ptChars_bounds : ∀ c ∈ ptChars, 128 ≤ c.toNat ∧ c.toNat < 0x4e00 := by decide

lemma ruChars_bounds : ∀ c ∈ ruChars, 128 ≤ c.toNat ∧ c.toNat < 0x4e00 := by decide

lemma matchEs_bounds {c : Char} (h : matchEs c = true) : 128 ≤ c.toNat ∧ c.toNat < 0x4e00 :=
  esChars_bounds c (of_decide_eq_true h)

lemma matchFr_bounds {c : Char} (h : matchFr c = true) : 128 ≤ c.toNat ∧ c.toNat < 0x4e00 :=
  frChars_bounds c (of_decide_eq_true h)

lemma matchDe_bounds {c : Char} (h : matchDe c = true) : 128 ≤ c.toNat ∧ c.toNat < 0x4e00 :=
  deChars_bounds c (of_decide_eq_true h)

lemma matchIt_bounds {c : Char} (h : matchIt c = true) : 128 ≤ c.toNat ∧ c.toNat < 0x4e00 :=
  itChars_bounds c (of_decide_eq_true h)

lemma matchPt_bounds {c : Char} (h : matchPt c = true) : 128 ≤ c.toNat ∧ c.toNat < 0x4e00 :=
  ptChars_bounds c (of_decide_eq_true h)

lemma matchRu_bounds {c : Char} (h : matchRu c = true) : 128 ≤ c.toNat ∧ c.toNat < 0x4e00 :=
  ruChars_bounds c (of_decide_eq_true h)

lemma matchZh_lb {c : Char} (h : matchZh c = true) : 0x4e00 ≤ c.toNat :=
  (of_decide_eq_true h).1

lemma matchJa_lb {c : Char} (h : matchJa c = true) : 0x3040 ≤ c.toNat := by
  rcases of_decide_eq_true h with ⟨h1, _⟩ | ⟨h1, _⟩ <;> omega

lemma matchKo_lb {c : Char} (h : matchKo c = true) : 0xac00 ≤ c.toNat :=
  (of_decide_eq_true h).1

lemma matchAr_lb {c : Char} (h : matchAr c = true) : 0x600 ≤ c.toNat :=
  (of_decide_eq_true h).1

lemma matchHi_lb {c : Char} (h : matchHi c = true) : 0x900 ≤ c.toNat :=
  (of_decide_eq_true h).1

lemma any_eq_false_of {l : List Char} {p : Char → Bool}
    (h : ∀ c ∈ l, ¬ p c = true) : l.any p = false := by
  rw [← Bool.not_eq_true, List.any_eq_true]
  push_neg
  exact fun c hc => by simpa using h c hc

/-- C5: the rule table is evaluated in exactly the order
es, fr, de, it, pt, ru, zh, ja, ko, ar, hi with first-match-wins semantics:
the sole character "ñ" yields "es"; a nonempty input of CJK ideographs in
U+4E00–U+9FFF yields "zh"; pure ASCII yields "en"; an input containing a
Spanish-diacritic character as well as a Cyrillic one yields "es". -/
theorem detectLanguage_spec :
    languagePatterns.map Prod.fst =
      ["es", "fr", "de", "it", "pt", "ru", "zh", "ja", "ko", "ar", "hi"] ∧
    detectLanguage "ñ" = "es" ∧
    (∀ text : String, text ≠ "" →
      (∀ c ∈ text.data, 0x4e00 ≤ c.toNat ∧ c.toNat ≤ 0x9fff) →
      detectLanguage text = "zh") ∧
    (∀ text : String, (∀ c ∈ text.data, c.toNat < 128) → detectLanguage text = "en") ∧
    (∀ text : String, (∃ c ∈ text.data, matchEs c = true) →
      (∃ c ∈ text.data, matchRu c = true) → detectLanguage text = "es") := by
  refine ⟨rfl, by decide, ?_, ?_, ?_⟩
  · intro text htext hcjk
    have hne : text.data ≠ [] := by
      intro hnil
      exact htext (String.ext (hnil.trans rfl))
    obtain ⟨c, cs, hcs⟩ := List.exists_cons_of_ne_nil hne
    have hmem : c ∈ text.data := by
      rw [hcs]
      exact List.mem_cons_self c cs
    have hzh : text.data.any matchZh = true := by
      rw [List.any_eq_true]
      exact ⟨c, hmem, decide_eq_true (hcjk c hmem)⟩
    have hes : text.data.any matchEs = false :=
      any_eq_false_of fun d hd h => by have := (matchEs_bounds h).2; have := (hcjk d hd).1; omega
    have hfr : text.data.any matchFr = false :=
      any_eq_false_of fun d hd h => by have := (matchFr_bounds h).2; have := (hcjk d hd).1; omega
    have hde : text.data.any matchDe = false :=
      any_eq_false_of fun d hd h => by have := (matchDe_bounds h).2; have := (hcjk d hd).1; omega
    have hit : text.data.any matchIt = false :=
      any_eq_false_of fun d hd h => by have := (matchIt_bounds h).2; have := (hcjk d hd).1; omega
    have hpt : text.data.any matchPt = false :=
      any_eq_false_of fun d hd h => by have := (matchPt_bounds h).2; have := (hcjk d hd).1; omega
    have hru : text.data.any matchRu = false :=
      any_eq_false_of fun d hd h => by have := (matchRu_bounds h).2; have := (hcjk d hd).1; omega
    simp [detectLanguage, languagePatterns, List.find?, hes, hfr, hde, hit, hpt, hru, hzh]
  · intro text hascii
    have hes : text.data.any matchEs = false :=
      any_eq_false_of fun d hd h => by have := (matchEs_bounds h).1; have := hascii d hd; omega
    have hfr : text.data.any matchFr = false :=
      any_eq_false_of fun d hd h => by have := (matchFr_bounds h).1; have := hascii d hd; omega
    have hde : text.data.any matchDe = false :=
      any_eq_false_of fun d hd h => by have := (matchDe_bounds h).1; have := hascii d hd; omega
    have hit : text.data.any matchIt = false :=
      any_eq_false_of fun d hd h => by have := (matchIt_bounds h).1; have := hascii d hd; omega
    have hpt : text.data.any matchPt = false :=
      any_eq_false_of fun d hd h => by have := (matchPt_bounds h).1; have := hascii d hd; omega
    have hru : text.data.any matchRu = false :=
      any_eq_false_of fun d hd h => by have := (matchRu_bounds h).1; have := hascii d hd; omega
    have hzh : text.data.any matchZh = false :=
      any_eq_false_of fun d hd h => by have := matchZh_lb h; have := hascii d hd; omega
    have hja : text.data.any matchJa = false :=
      any_eq_false_of fun d hd h => by have := matchJa_lb h; have := hascii d hd; omega
    have hko : text.data.any matchKo = false :=
      any_eq_false_of fun d hd h => by have := matchKo_lb h; have := hascii d hd; omega
    have har : text.data.any matchAr = false :=
      any_eq_false_of fun d hd h => by have := matchAr_lb h; have := hascii d hd; omega
    have hhi : text.data.any matchHi = false :=
      any_eq_false_of fun d hd h => by have := matchHi_lb h; have := hascii d hd; omega
    simp [detectLanguage, languagePatterns, List.find?,
      hes, hfr, hde, hit, hpt, hru, hzh, hja, hko, har, hhi]
  · intro text hesx _
    have hes : text.data.any matchEs = true := by
      rw [List.any_eq_true]
      obtain ⟨c, hc, hm⟩ := hesx
      exact ⟨c, hc, hm⟩
    simp [detectLanguage, languagePatterns, List.find?, hes]

/-- Witness for `detectLanguage_spec`, exercising the CJK, ASCII and
mixed-script conjuncts at concrete inputs. -/
theorem detectLanguage_spec_witness :
    detectLanguage "中文" = "zh" ∧ detectLanguage "hello" = "en" ∧
    detectLanguage "dañя" = "es" :=
  ⟨detectLanguage_spec.2.2.1 "中文" (by decide) (by decide),
   detectLanguage_spec.2.2.2.1 "hello" (by decide),
   detectLanguage_spec.2.2.2.2 "dañя" ⟨'ñ', by decide, by decide⟩ ⟨'я', by decide, by decide⟩⟩

lemma checkUsageLimit_fst_date (today : String) (st : Store) :
    (checkUsageLimit today st).1.aiUsageDate = some today := by
  by_cases h : st.aiUsageDate = some today
  · rw [checkUsageLimit_same_day _ _ h]
    exact h
  · rw [checkUsageLimit_new_day _ _ h]

lemma checkUsageLimit_canUse_false_iff (today : String) (st : Store) :
    (checkUsageLimit today st).2.canUse = false ↔
    (checkUsageLimit today st).2.remaining = 0 := by
  by_cases h : st.aiUsageDate = some today
  · rw [checkUsageLimit_same_day _ _ h]
    simp only [decide_eq_false_iff_not]
    omega
  · rw [checkUsageLimit_new_day _ _ h]
    simp [MAX_DAILY_USAGE]

lemma checkUsageLimit_store_of_canUse_false (today : String) (st : Store)
    (h : (checkUsageLimit today st).2.canUse = false) :
    (checkUsageLimit today st).1 = st := by
  by_cases hd : st.aiUsageDate = some today
  · rw [checkUsageLimit_same_day _ _ hd]
  · rw [checkUsageLimit_new_day _ _ hd] at h
    simp at h

lemma checkUsageLimit_idem (today : String) (st : Store) :
    checkUsageLimit today ((checkUsageLimit today st).1) = checkUsageLimit today st := by
  by_cases hd : st.aiUsageDate = some today
  · have h := checkUsageLimit_same_day today st hd
    rw [h]
    exact h
  · rw [checkUsageLimit_new_day _ _ hd, checkUsageLimit_same_day _ _ rfl]
    rfl

lemma generateResponse_const_ok (today prompt : String)
    (context fileContent : Option String) (isImage : Bool) (resp : String) (st : Store)
    (hcan : (checkUsageLimit today st).2.canUse = true) :
    generateResponse today (fun _ => ProviderOutcome.ok resp) prompt context fileContent
        isImage st =
      { store := incrementUsage today (checkUsageLimit today st).1,
        result := Except.ok
          (if resp.isEmpty then emptyResponseFallback fileContent isImage else resp),
        calls := [builtRequest prompt context fileContent isImage] } := by
  simp [generateResponse, hcan]

/-- C2: `generateResponse` consults the quota first: with `remaining = 0`
after lazy reset it throws `LIMIT_EXCEEDED`, makes no provider call and leaves
the store untouched; with quota remaining it dispatches exactly one request,
increments the counter exactly once iff the provider succeeds (returning the
text, or the fixed fallback on an empty text), and on provider failure leaves
the counter unchanged and throws the single error obtained by ordered
substring classification (quota/RESOURCE_EXHAUSTED, then API key /
INVALID_ARGUMENT, then forbidden, else the generic failure). -/
theorem generateResponse_contract (today prompt : String)
    (context fileContent : Option String) (isImage : Bool)
    (provider : GenRequest → ProviderOutcome) (st : Store) :
    ((checkUsageLimit today st).2.remaining = 0 →
      generateResponse today provider prompt context fileContent isImage st =
        { store := st, result := Except.error "LIMIT_EXCEEDED", calls := [] }) ∧
    ((checkUsageLimit today st).2.remaining ≠ 0 →
      (generateResponse today provider prompt context fileContent isImage st).calls
        = [builtRequest prompt context fileContent isImage] ∧
      (∀ t, provider (builtRequest prompt context fileContent isImage)
          = ProviderOutcome.ok t →
        (generateResponse today provider prompt context fileContent isImage st).store
          = incrementUsage today (checkUsageLimit today st).1 ∧
        (generateResponse today provider prompt context fileContent
            isImage st).store.aiUsageCount.getD 0
          = (checkUsageLimit today st).1.aiUsageCount.getD 0 + 1 ∧
        (t.isEmpty = false →
          (generateResponse today provider prompt context fileContent isImage st).result
            = Except.ok t) ∧
        (t.isEmpty = true →
          (generateResponse today provider prompt context fileContent isImage st).result
            = Except.ok (emptyResponseFallback fileContent isImage))) ∧
      (∀ m, provider (builtRequest prompt context fileContent isImage)
          = ProviderOutcome.err m →
        (generateResponse today provider prompt context fileContent isImage st).store
          = (checkUsageLimit today st).1 ∧
        (generateResponse today provider prompt context fileContent isImage st).result
          = Except.error (classifyGeminiError m))) ∧
    (∀ m, (strIncludes m "quota" || strIncludes m "RESOURCE_EXHAUSTED") = true →
      classifyGeminiError m = "API_QUOTA_EXCEEDED") ∧
    (∀ m, (strIncludes m "quota" || strIncludes m "RESOURCE_EXHAUSTED") = false →
      (strIncludes m "API key" || strIncludes m "INVALID_ARGUMENT") = true →
      classifyGeminiError m = "INVALID_API_KEY") ∧
    (∀ m, (strIncludes m "quota" || strIncludes m "RESOURCE_EXHAUSTED") = false →
      (strIncludes m "API key" || strIncludes m "INVALID_ARGUMENT") = false →
      strIncludes m "forbidden" = true →
      classifyGeminiError m
        = "API access forbidden. Please check your Gemini account permissions.") ∧
    (∀ m, (strIncludes m "quota" || strIncludes m "RESOURCE_EXHAUSTED") = false →
      (strIncludes m "API key" || strIncludes m "INVALID_ARGUMENT") = false →
      strIncludes m "forbidden" = false →
      classifyGeminiError m = "Failed to generate response. Please try again.") := by
  refine ⟨?_, ?_, ?_, ?_, ?_, ?_⟩
  · intro h0
    have hcu : (checkUsageLimit today st).2.canUse = false :=
      (checkUsageLimit_canUse_false_iff today st).mpr h0
    have hst : (checkUsageLimit today st).1 = st :=
      checkUsageLimit_store_of_canUse_false _ _ hcu
    simp [generateResponse, hcu, hst]
  · intro hne
    have hcu : (checkUsageLimit today st).2.canUse = true := by
      rcases Bool.eq_false_or_eq_true (checkUsageLimit today st).2.canUse with h | h
      · exact h
      · exact absurd ((checkUsageLimit_canUse_false_iff today st).mp h) hne
    refine ⟨?_, ?_, ?_⟩
    · cases hp : provider (builtRequest prompt context fileContent isImage) <;>
        simp [generateResponse, hcu, hp]
    · intro t hp
      have hg : generateResponse today provider prompt context fileContent isImage st =
          { store := incrementUsage today (checkUsageLimit today st).1,
            result := Except.ok
              (if t.isEmpty then emptyResponseFallback fileContent isImage else t),
            calls := [builtRequest prompt context fileContent isImage] } := by
        simp [generateResponse, hcu, hp]
      rw [hg]
      refine ⟨rfl, by simp [incrementUsage], ?_, ?_⟩
      · intro ht
        simp [ht]
      · intro ht
        simp [ht]
    · intro m hp
      have hg : generateResponse today provider prompt context fileContent isImage st =
          { store := (checkUsageLimit today st).1,
            result := Except.error (classifyGeminiError m),
            calls := [builtRequest prompt context fileContent isImage] } := by
        simp [generateResponse, hcu, hp]
      rw [hg]
      exact ⟨rfl, rfl⟩
  · intro m h1
    simp [classifyGeminiError, h1]
  · intro m h1 h2
    simp [classifyGeminiError, h1, h2]
  · intro m h1 h2 h3
    simp [classifyGeminiError, h1, h2, h3]
  · intro m h1 h2 h3
    simp [classifyGeminiError, h1, h2, h3]

/-- Witness for `generateResponse_contract`: an exhausted store blocks the
call; a store with quota left increments on success and classifies a quota
failure message. -/
theorem generateResponse_contract_witness :
    generateResponse "Mon Oct 06 2025" (fun _ => ProviderOutcome.ok "Hi!") "p" none none false
        (⟨none, some 4, some "Mon Oct 06 2025"⟩ : Store) =
      { store := ⟨none, some 4, some "Mon Oct 06 2025"⟩,
        result := Except.error "LIMIT_EXCEEDED", calls := [] } ∧
    (generateResponse "Mon Oct 06 2025" (fun _ => ProviderOutcome.ok "Hi!") "p" none none false
        (⟨none, some 0, some "Mon Oct 06 2025"⟩ : Store)).calls
      = [builtRequest "p" none none false] ∧
    (generateResponse "Mon Oct 06 2025" (fun _ => ProviderOutcome.ok "Hi!") "p" none none false
        (⟨none, some 0, some "Mon Oct 06 2025"⟩ : Store)).store.aiUsageCount.getD 0
      = (checkUsageLimit "Mon Oct 06 2025"
          (⟨none, some 0, some "Mon Oct 06 2025"⟩ : Store)).1.aiUsageCount.getD 0 + 1 ∧
    (generateResponse "Mon Oct 06 2025" (fun _ => ProviderOutcome.ok "Hi!") "p" none none false
        (⟨none, some 0, some "Mon Oct 06 2025"⟩ : Store)).result = Except.ok "Hi!" ∧
    (generateResponse "Mon Oct 06 2025" (fun _ => ProviderOutcome.err "quota hit") "p" none none
        false (⟨none, some 0, some "Mon Oct 06 2025"⟩ : Store)).result
      = Except.error "API_QUOTA_EXCEEDED" ∧
    classifyGeminiError "quota hit" = "API_QUOTA_EXCEEDED" := by
  have hex := (generateResponse_contract "Mon Oct 06 2025" "p" none none false
    (fun _ => ProviderOutcome.ok "Hi!") ⟨none, some 4, some "Mon Oct 06 2025"⟩).1 (by decide)
  have hok := (generateResponse_contract "Mon Oct 06 2025" "p" none none false
    (fun _ => ProviderOutcome.ok "Hi!") ⟨none, some 0, some "Mon Oct 06 2025"⟩).2.1 (by decide)
  have herr := (generateResponse_contract "Mon Oct 06 2025" "p" none none false
    (fun _ => ProviderOutcome.err "quota hit") ⟨none, some 0, some "Mon Oct 06 2025"⟩).2.1
    (by decide)
  have hcls := (generateResponse_contract "Mon Oct 06 2025" "p" none none false
    (fun _ => ProviderOutcome.ok "Hi!") ⟨none, some 0, some "Mon Oct 06 2025"⟩).2.2.1
    "quota hit" (by decide)
  refine ⟨hex, hok.1, (hok.2.1 "Hi!" rfl).2.1, (hok.2.1 "Hi!" rfl).2.2.1 (by decide), ?_, hcls⟩
  rw [(herr.2.2 "quota hit" rfl).2, hcls]

/-- C4: a non-empty submission while the daily quota is exhausted appends
exactly one system turn stating the limit, makes no provider call, appends no
user turn, and leaves the stored usage state and the displayed usage info
unchanged. -/
theorem handleSendMessage_limit_blocks (today text lang : String)
    (provider : GenRequest → ProviderOutcome) (st : ChatState)
    (htrim : (jsTrim text).isEmpty = false)
    (hcan : (checkUsageLimit today st.store).2.canUse = false) :
    (handleSendMessage today provider text lang st).2 = [] ∧
    (handleSendMessage today provider text lang st).1.messages =
      st.messages ++
        [⟨"Daily usage limit reached (4 times). Try again tomorrow! You have 0 uses remaining.",
          false, lang⟩] ∧
    (handleSendMessage today provider text lang st).1.store = st.store ∧
    (handleSendMessage today provider text lang st).1.usageInfo = st.usageInfo := by
  have hst : (checkUsageLimit today st.store).1 = st.store :=
    checkUsageLimit_store_of_canUse_false _ _ hcan
  have hrem : (checkUsageLimit today st.store).2.remaining = 0 :=
    (checkUsageLimit_canUse_false_iff _ _).mp hcan
  refine ⟨?_, ?_, ?_, ?_⟩ <;>
      simp [handleSendMessage, htrim, hcan, hst, hrem, addMessage] <;>
    rfl

/-- Witness for `handleSendMessage_limit_blocks` at a concrete exhausted
session. -/
theorem handleSendMessage_limit_blocks_witness :
    (handleSendMessage "Mon Oct 06 2025" (fun _ => ProviderOutcome.ok "Hi!") "hello" "en"
      (⟨[], "", false, [], true, ⟨true, 4⟩, false, false,
        ⟨none, some 4, some "Mon Oct 06 2025"⟩⟩ : ChatState)).2 = [] ∧
    (handleSendMessage "Mon Oct 06 2025" (fun _ => ProviderOutcome.ok "Hi!") "hello" "en"
      (⟨[], "", false, [], true, ⟨true, 4⟩, false, false,
        ⟨none, some 4, some "Mon Oct 06 2025"⟩⟩ : ChatState)).1.messages =
      ([] : List Message) ++
        [⟨"Daily usage limit reached (4 times). Try again tomorrow! You have 0 uses remaining.",
          false, "en"⟩] ∧
    (handleSendMessage "Mon Oct 06 2025" (fun _ => ProviderOutcome.ok "Hi!") "hello" "en"
      (⟨[], "", false, [], true, ⟨true, 4⟩, false, false,
        ⟨none, some 4, some "Mon Oct 06 2025"⟩⟩ : ChatState)).1.store =
      (⟨none, some 4, some "Mon Oct 06 2025"⟩ : Store) ∧
    (handleSendMessage "Mon Oct 06 2025" (fun _ => ProviderOutcome.ok "Hi!") "hello" "en"
      (⟨[], "", false, [], true, ⟨true, 4⟩, false, false,
        ⟨none, some 4, some "Mon Oct 06 2025"⟩⟩ : ChatState)).1.usageInfo =
      (⟨true, 4⟩ : CheckResult) :=
  handleSendMessage_limit_blocks "Mon Oct 06 2025" "hello" "en"
    (fun _ => ProviderOutcome.ok "Hi!")
    ⟨[], "", false, [], true, ⟨true, 4⟩, false, false,
      ⟨none, some 4, some "Mon Oct 06 2025"⟩⟩ (by decide) (by decide)

/-- C10: a submission whose text trims to empty is a complete no-op: the state
is returned unchanged and no provider call is made. -/
theorem handleSendMessage_blank_noop (today : String)
    (provider : GenRequest → ProviderOutcome) (text lang : String) (st : ChatState)
    (h : (jsTrim text).isEmpty = true) :
    handleSendMessage today provider text lang st = (st, []) := by
  simp [handleSendMessage, h]

/-- Witness for `handleSendMessage_blank_noop` on a whitespace-only input. -/
theorem handleSendMessage_blank_noop_witness :
    handleSendMessage "Mon Oct 06 2025" (fun _ => ProviderOutcome.ok "Hi!") "   " "en"
      freshChatState = (freshChatState, []) :=
  handleSendMessage_blank_noop "Mon Oct 06 2025" (fun _ => ProviderOutcome.ok "Hi!")
    "   " "en" freshChatState (by decide)

/-- C8 counterexample: voice input supplying the tag "en" with transcript
"señor" does not win over detection — the orchestrator runs the heuristics and
tags the assistant turn "es", so a voice-supplied "en" is overridden. -/
theorem voiceSuppliedEnIsOverridden :
    ((handleSendMessage "Mon Oct 06 2025" (fun _ => ProviderOutcome.ok "Hello!") "señor" "en"
        freshChatState).1.messages.map Message.language = ["en", "es"]) ∧
    ¬ ((handleSendMessage "Mon Oct 06 2025" (fun _ => ProviderOutcome.ok "Hello!") "señor" "en"
        freshChatState).1.messages.map Message.language = ["en", "en"]) := by
  decide

/-- C8 (amended): the supplied tag wins over detection exactly when it differs
from "en"; a supplied "en" (also the default for typed input) triggers
detection on the text, per `effectiveUserLanguage`. -/
theorem handleSendMessage_effective_language (today text lang resp : String) (st : ChatState)
    (htrim : (jsTrim text).isEmpty = false)
    (hcan : (checkUsageLimit today st.store).2.canUse = true) :
    ∃ m : Message,
      (handleSendMessage today (fun _ => ProviderOutcome.ok resp) text lang st).1.messages
        = st.messages ++ [⟨text, true, lang⟩, m] ∧
      m.isUser = false ∧
      m.language = effectiveUserLanguage text lang ∧
      (¬ lang = "en" → m.language = lang) := by
  have hcan1 : (checkUsageLimit today ((checkUsageLimit today st.store).1)).2.canUse = true := by
    rw [checkUsageLimit_idem]
    exact hcan
  refine ⟨⟨if (effectiveUserLanguage text lang) ≠ "en"
      then translateText (if resp.isEmpty
        then emptyResponseFallback (some (match st.uploadedFiles.getLast? with
          | some f => f.content
          | none => ""))
          (match st.uploadedFiles.getLast? with
            | some f => f.isImage
            | none => false) else resp) "en" (effectiveUserLanguage text lang)
      else (if resp.isEmpty
        then emptyResponseFallback (some (match st.uploadedFiles.getLast? with
          | some f => f.content
          | none => ""))
          (match st.uploadedFiles.getLast? with
            | some f => f.isImage
            | none => false) else resp),
      false, effectiveUserLanguage text lang⟩, ?_, rfl, rfl, ?_⟩
  · simp [handleSendMessage, htrim, hcan, addMessage, effectiveUserLanguage,
      generateResponse_const_ok _ _ _ _ _ _ _ hcan1]
  · intro h
    simp [effectiveUserLanguage, h]

/-- Witness for `handleSendMessage_effective_language`: a voice-supplied
non-default tag "fr" wins over detection. -/
theorem handleSendMessage_effective_language_witness :
    ∃ m : Message,
      (handleSendMessage "Mon Oct 06 2025" (fun _ => ProviderOutcome.ok "Bien!") "hola" "fr"
          freshChatState).1.messages
        = freshChatState.messages ++ [⟨"hola", true, "fr"⟩, m] ∧
      m.isUser = false ∧
      m.language = effectiveUserLanguage "hola" "fr" ∧
      (¬ "fr" = "en" → m.language = "fr") :=
  handleSendMessage_effective_language "Mon Oct 06 2025" "hola" "fr" "Bien!" freshChatState
    (by decide) (by decide)

/-- C9 counterexample: in a fresh session, submitting "hola" does not detect
"es" — "hola" contains no diacritic, so the heuristics return "en" and both
appended turns are tagged "en", contradicting the claimed "es" tagging and
back-translation. -/
theorem holaScenarioDetectsEn :
    detectLanguage "hola" = "en" ∧
    ((handleSendMessage "Mon Oct 06 2025" (fun _ => ProviderOutcome.ok "Hello!") "hola" "en"
        freshChatState).1.messages.map Message.language = ["en", "en"]) ∧
    ¬ ((handleSendMessage "Mon Oct 06 2025" (fun _ => ProviderOutcome.ok "Hello!") "hola" "en"
        freshChatState).1.messages.map Message.language = ["en", "es"]) := by
  decide

/-- C9 (amended): fresh session with remaining 4; submitting "hola" detects
"en" (so no translation step changes anything), makes exactly one generation
call carrying "hola", appends exactly the user and assistant turns (tagged
"en"), and remaining becomes 3. -/
theorem holaScenarioAmended :
    (checkUsageLimit "Mon Oct 06 2025" freshChatState.store).2.remaining = 4 ∧
    (handleSendMessage "Mon Oct 06 2025" (fun _ => ProviderOutcome.ok "Hello!") "hola" "en"
        freshChatState).2 = [GenRequest.text "hola"] ∧
    (handleSendMessage "Mon Oct 06 2025" (fun _ => ProviderOutcome.ok "Hello!") "hola" "en"
        freshChatState).1.messages = [⟨"hola", true, "en"⟩, ⟨"Hello!", false, "en"⟩] ∧
    (handleSendMessage "Mon Oct 06 2025" (fun _ => ProviderOutcome.ok "Hello!") "hola" "en"
        freshChatState).1.usageInfo.remaining = 3 ∧
    (checkUsageLimit "Mon Oct 06 2025"
        (handleSendMessage "Mon Oct 06 2025" (fun _ => ProviderOutcome.ok "Hello!") "hola" "en"
          freshChatState).1.store).2.remaining = 3 := by
  decide

end AiGuru
